import Mathlib

/-
Verification of the incremental-load orchestration protocol of the
dbt-sandbox repository (two cloud functions:
src/functions/load-data/bq-load-file/main.py, the load orchestrator, and
src/functions/load-data/bq-start-load/main.py, the fan-out dispatcher).

Shallow embedding conventions:
* Timestamps are natural numbers counting microseconds since the epoch.
  Python datetime.timestamp() is the value in seconds as a float;
  int(...timestamp()) truncates to whole seconds, modelled by pyIntSec.
* The Datastore entity for a job is an association list from field name to
  timestamp value; the datastore itself is an association list from job
  name to entity, mirroring dict-like lookup/replace semantics.
* External collaborators (config fetch, schema fetch, BigQuery load job,
  storage listing) are supplied as oracle values in an Env record; the
  code of the repository that manipulates their results is embedded
  faithfully.
* A Python function that can either return a value or raise an uncaught
  exception is modelled with the Outcome type; exception objects that are
  returned (not raised) by the code appear as RetVal.errObj.
-/

set_option autoImplicit false

namespace DbtSandbox

/-- Microseconds since the Unix epoch. -/
abbrev Micros := Nat

/-- Model of Python int(t.timestamp()): truncation of a timestamp to whole
seconds (timestamps are nonnegative, so truncation is floor division). -/
def pyIntSec (t : Micros) : Nat := t / 1000000

/-- timedelta(minutes=5), in microseconds. -/
def debounceMicros : Nat := 300000000

/-- A Datastore entity: a record of named timestamp fields. -/
abbrev Entity := List (String × Micros)

/-- Dict-style lookup of a field in an entity (entity.get(k)). -/
def entityGet : Entity → String → Option Micros
  | [], _ => Option.none
  | (k2, v) :: rest, k => if k2 = k then some v else entityGet rest k

/-- Dict-style update of one field (entity.update with a singleton dict):
replaces the value when the key is present, appends it otherwise. -/
def entityUpdate : Entity → String → Micros → Entity
  | [], k, v => [(k, v)]
  | (k2, v2) :: rest, k, v =>
    if k2 = k then (k, v) :: rest else (k2, v2) :: entityUpdate rest k v

/-- The watermark store: one entity per job name. -/
abbrev Datastore := List (String × Entity)

/-- Lookup of the entity stored under a job name. -/
def dsGet : Datastore → String → Option Entity
  | [], _ => Option.none
  | (j, e) :: rest, job => if j = job then some e else dsGet rest job

/-- Whole-record put of an entity under a job name (DATASTORE_CLIENT.put). -/
def dsPut : Datastore → String → Entity → Datastore
  | [], job, e => [(job, e)]
  | (j, e2) :: rest, job, e =>
    if j = job then (job, e) :: rest else (j, e2) :: dsPut rest job e

/-- Embedding of get_entity: read the entity keyed by the job name. -/
def get_entity (ds : Datastore) (job_name : String) : Option Entity :=
  dsGet ds job_name

/-- Embedding of set_entity_item: read the current entity (creating an
empty one when absent), update the single named field, and put the whole
record back. -/
def set_entity_item (ds : Datastore) (job_name : String) (key : String)
    (value : Micros) : Datastore :=
  let entity : Entity :=
    match get_entity ds job_name with
    | some e => e
    | Option.none => []
  dsPut ds job_name (entityUpdate entity key value)

/-- Embedding of get_last_modified_time: entity.get("last_modified_time")
when the entity exists, otherwise None. -/
def get_last_modified_time (entity : Option Entity) : Option Micros :=
  match entity with
  | some e => entityGet e "last_modified_time"
  | Option.none => Option.none

/-- Observer used in specifications: the value of one field of the record
stored for a job name (None when the record or the field is absent). -/
def storeField (ds : Datastore) (job : String) (k : String) : Option Micros :=
  match dsGet ds job with
  | some e => entityGet e k
  | Option.none => Option.none

theorem entityGet_update_same (e : Entity) (k : String) (v : Micros) :
    entityGet (entityUpdate e k v) k = some v := by
  induction e with
  | nil => simp [entityUpdate, entityGet]
  | cons hd tl ih =>
    by_cases h : hd.1 = k
    · simp [entityUpdate, entityGet, h]
    · simp [entityUpdate, entityGet, h, ih]

theorem entityGet_update_other (e : Entity) (k k2 : String) (v : Micros)
    (hne : k2 ≠ k) : entityGet (entityUpdate e k v) k2 = entityGet e k2 := by
  have hkk : ¬ k = k2 := fun h => hne h.symm
  induction e with
  | nil => simp [entityUpdate, entityGet, hkk]
  | cons hd tl ih =>
    by_cases h : hd.1 = k
    · have h2 : ¬ hd.1 = k2 := by rw [h]; exact hkk
      simp [entityUpdate, entityGet, h, hkk, h2]
    · simp [entityUpdate, entityGet, h, ih]

theorem dsGet_put_same (ds : Datastore) (job : String) (e : Entity) :
    dsGet (dsPut ds job e) job = some e := by
  induction ds with
  | nil => simp [dsPut, dsGet]
  | cons hd tl ih =>
    by_cases h : hd.1 = job
    · simp [dsPut, dsGet, h]
    · simp [dsPut, dsGet, h, ih]

theorem dsGet_put_other (ds : Datastore) (job j : String) (e : Entity)
    (hne : j ≠ job) : dsGet (dsPut ds job e) j = dsGet ds j := by
  have hjj : ¬ job = j := fun h => hne h.symm
  induction ds with
  | nil => simp [dsPut, dsGet, hjj]
  | cons hd tl ih =>
    by_cases h : hd.1 = job
    · have h2 : ¬ hd.1 = j := by rw [h]; exact hjj
      simp [dsPut, dsGet, h, hjj, h2]
    · simp [dsPut, dsGet, h, ih]

theorem storeField_set_same (ds : Datastore) (job k : String) (v : Micros) :
    storeField (set_entity_item ds job k v) job k = some v := by
  simp [storeField, set_entity_item, dsGet_put_same, entityGet_update_same]

theorem storeField_set_other_field (ds : Datastore) (job k k2 : String)
    (v : Micros) (hne : k2 ≠ k) :
    storeField (set_entity_item ds job k v) job k2 = storeField ds job k2 := by
  have hkk : ¬ k = k2 := fun h => hne h.symm
  simp only [storeField, set_entity_item, get_entity, dsGet_put_same]
  cases h : dsGet ds job with
  | none => simp [h, entityGet_update_other _ _ _ _ hne, entityGet, hkk]
  | some e => simp [h, entityGet_update_other _ _ _ _ hne]

theorem storeField_set_other_job (ds : Datastore) (job j k2 k : String)
    (v : Micros) (hne : j ≠ job) :
    storeField (set_entity_item ds job k v) j k2 = storeField ds j k2 := by
  simp [storeField, set_entity_item, dsGet_put_other _ _ _ _ hne]

/-- Python exception objects that the embedded code raises or returns. -/
inductive PyErr where
  | attributeError (msg : String)
  | valueError (msg : String)
  | loadError (msg : String)
deriving Repr, DecidableEq

/-- A value returned by start_file_load: None, a string, or a returned
exception object (the disposition-validation paths return the error). -/
inductive RetVal where
  | none
  | str (s : String)
  | errObj (e : PyErr)
deriving Repr, DecidableEq

/-- Normal return versus uncaught exception. -/
inductive Outcome where
  | ret (v : RetVal)
  | raised (e : PyErr)
deriving Repr, DecidableEq

/-- The job configuration resolved from config.json for one job name. -/
structure Config where
  blobPref : String
  schema_file_location : Option String
  storage_bucket : String
  destination_table_id : String
  file_type : String
  hive_partitioning : Option String
  create_behavior : Option String
  write_behavior : Option String
deriving Repr, DecidableEq

/-- Class-machinery attribute names that getattr finds on every plain
CPython class: the attributes inherited from object plus those that
class-level access resolves through the metaclass type (so
getattr(CreateDisposition, s) succeeds for these even though they are
not dispositions). -/
def pyClassMachineryAttrs : List String :=
  ["__class__", "__delattr__", "__dict__", "__dir__", "__doc__", "__eq__",
   "__format__", "__ge__", "__getattribute__", "__getstate__", "__gt__",
   "__hash__", "__init__", "__init_subclass__", "__le__", "__lt__",
   "__module__", "__ne__", "__new__", "__reduce__", "__reduce_ex__",
   "__repr__", "__setattr__", "__sizeof__", "__str__", "__subclasshook__",
   "__weakref__", "__abstractmethods__", "__base__", "__bases__",
   "__basicsize__", "__call__", "__dictoffset__", "__flags__",
   "__instancecheck__", "__itemsize__", "__mro__", "__name__",
   "__prepare__", "__qualname__", "__subclasscheck__", "__subclasses__",
   "__text_signature__", "__weakrefoffset__", "__or__", "__ror__", "mro"]

/-- The success set of getattr(CreateDisposition, s) for the plain class
google.cloud.bigquery.enums.CreateDisposition: its disposition constants
together with the class-machinery attributes every class carries. -/
def CreateDispositionAttrs : List String :=
  ["CREATE_IF_NEEDED", "CREATE_NEVER"] ++ pyClassMachineryAttrs

/-- The success set of getattr(WriteDisposition, s), analogously. -/
def WriteDispositionAttrs : List String :=
  ["WRITE_APPEND", "WRITE_TRUNCATE", "WRITE_EMPTY"] ++ pyClassMachineryAttrs

/-- The parsed JSON body of a request. -/
structure ReqJson where
  job_name : Option String
  backfill : Option Bool
deriving Repr, DecidableEq

/-- An HTTP request; body is None when request.get_json(silent=True)
cannot parse the body as JSON. -/
structure Request where
  body : Option ReqJson
deriving Repr, DecidableEq

/-- An object returned by the storage listing: name and last-modified
timestamp (blob.updated). -/
structure Blob where
  name : String
  updated : Micros
deriving Repr, DecidableEq

/-- The environment of one orchestrator invocation: the state of the
external collaborators at that moment. currentTime is datetime.utcnow()
captured at the start of the run; stampTime is the (slightly later)
datetime.utcnow() evaluated when the attempt stamp is written. -/
structure Env where
  configRes : Except PyErr Config
  store : Datastore
  blobs : List Blob
  currentTime : Micros
  stampTime : Micros
  schemaRes : Except PyErr Unit
  bqRes : Except PyErr Unit

/-- The blobs_to_load value: either the wildcard string of backfill mode
or the explicit URI list of incremental mode; len is Python len() on it. -/
inductive BlobsToLoad where
  | wildcard (s : String)
  | files (l : List String)
deriving Repr, DecidableEq

def BlobsToLoad.len : BlobsToLoad → Nat
  | .wildcard s => s.length
  | .files l => l.length

/-- The observable result of one orchestrator invocation: outcome, final
store contents, the set_entity_item calls made (job, field, value), and
whether load_files_to_biquery was invoked. -/
structure RunOut where
  outcome : Outcome
  store : Datastore
  setCalls : List (String × String × Micros)
  loaderInvoked : Bool
deriving Repr, DecidableEq

/-- The URI built for a listed blob. -/
def blobUri (bucket_name : String) (b : Blob) : String :=
  "gs://" ++ bucket_name ++ "/" ++ b.name

/-- The loop body of list_blobs: append the URI of each blob whose
last-modified timestamp, truncated to seconds, strictly exceeds the
truncated cutoff. -/
def list_blobs_loop (bucket_name : String) (tsAfter : Micros) :
    List Blob → List String → List String
  | [], acc => acc
  | b :: rest, acc =>
    if pyIntSec tsAfter < pyIntSec b.updated then
      list_blobs_loop bucket_name tsAfter rest (acc ++ [blobUri bucket_name b])
    else
      list_blobs_loop bucket_name tsAfter rest acc

/-- Embedding of list_blobs: blobs is what the storage client returns for
the bucket and the prefix; the loop keeps those with
int(blob.updated.timestamp()) > int(tsAfter.timestamp()). -/
def list_blobs (bucket_name : String) (pref : String) (tsAfter : Micros)
    (blobs : List Blob) : List String :=
  list_blobs_loop bucket_name tsAfter blobs []

/-- Embedding of load_files_to_biquery: validates file_type (raising
ValueError otherwise) and then performs the external load job, whose
outcome is the bqRes oracle. Arguments that only parametrise the external
call are kept for fidelity. -/
def load_files_to_biquery (list_file_names : BlobsToLoad)
    (schema : Option Unit) (file_type : String)
    (destination_table_id : String) (hive_partitioning : Option String)
    (create_behavior : Option String) (write_behavior : Option String)
    (bqRes : Except PyErr Unit) : Except PyErr Unit :=
  if file_type = "json" then bqRes
  else if file_type = "csv" then bqRes
  else Except.error (PyErr.valueError "Please enter a valid file_type")

/-- The debounce and mode decision of start_file_load (lines 99 to 110):
when both last_modified_time and last_attempted_grab are present, reject
when the last attempt is within five minutes of now and otherwise take the
backfill flag from the request (default False); when either is missing,
force backfill. -/
inductive Decision where
  | tooSoon
  | accepted (backfill_flag : Bool) (last_modified_time : Option Micros)
deriving Repr, DecidableEq

/-- Embedding of lines 89 to 91: entity.get("last_attempted_grab") when
the entity exists, otherwise None. -/
def get_last_attempted_grab (entity : Option Entity) : Option Micros :=
  match entity with
  | some e => entityGet e "last_attempted_grab"
  | Option.none => Option.none

def debounce_decision (entity : Option Entity) (reqBackfill : Option Bool)
    (current_time : Micros) : Decision :=
  match get_last_modified_time entity, get_last_attempted_grab entity with
  | some lmt, some lag =>
    let backfill_flag := reqBackfill.getD false
    if (lag : Int) > (current_time : Int) - (debounceMicros : Int) then
      Decision.tooSoon
    else
      Decision.accepted backfill_flag (some lmt)
  | _, _ => Decision.accepted true (get_last_modified_time entity)

/-- Embedding of select_blobs (lines 115 to 118 of start_file_load): the
wildcard pattern in backfill mode, the filtered listing otherwise. When
the watermark is absent in incremental mode the Python code would raise on
tsAfter.timestamp(); that path is unreachable because a missing watermark
forces backfill. -/
def select_blobs (env : Env) (cfg : Config) (backfill_flag : Bool)
    (last_modified_time : Option Micros) : Except PyErr BlobsToLoad :=
  if backfill_flag then
    Except.ok (BlobsToLoad.wildcard
      ("gs://" ++ cfg.storage_bucket ++ "/" ++ cfg.blobPref ++ "*"))
  else
    match last_modified_time with
    | some t =>
      Except.ok (BlobsToLoad.files
        (list_blobs cfg.storage_bucket cfg.blobPref t env.blobs))
    | Option.none =>
      Except.error (PyErr.attributeError
        "NoneType object has no attribute timestamp")

/-- Embedding of the schema step (line 124): get_schema is called only
when schema_file_location is truthy; its outcome is the schemaRes oracle
and a raised error propagates out of start_file_load uncaught. -/
def fetch_schema (env : Env) (cfg : Config) : Except PyErr (Option Unit) :=
  match cfg.schema_file_location with
  | some loc =>
    if loc = "" then Except.ok Option.none
    else Except.map (fun u => some u) env.schemaRes
  | Option.none => Except.ok Option.none

/-- Embedding of the accepted-run tail of start_file_load (lines 112 to
155): stamp last_attempted_grab, select blobs, short-circuit on an empty
selection, fetch the schema, call the loader inside try/except (any raise
is logged and the function returns None), and on success write
last_modified_time = current_time and return the success string. -/
def runAccepted (env : Env) (cfg : Config) (job_name : String)
    (backfill_flag : Bool) (last_modified_time : Option Micros) : RunOut :=
  let store1 := set_entity_item env.store job_name "last_attempted_grab"
    env.stampTime
  let calls1 : List (String × String × Micros) :=
    [(job_name, "last_attempted_grab", env.stampTime)]
  match select_blobs env cfg backfill_flag last_modified_time with
  | Except.error e =>
    { outcome := Outcome.raised e, store := store1, setCalls := calls1,
      loaderInvoked := false }
  | Except.ok blobs_to_load =>
    if blobs_to_load.len = 0 then
      { outcome := Outcome.ret
          (RetVal.str ("There are no new blobs to load for " ++ job_name)),
        store := store1, setCalls := calls1, loaderInvoked := false }
    else
      match fetch_schema env cfg with
      | Except.error e =>
        { outcome := Outcome.raised e, store := store1, setCalls := calls1,
          loaderInvoked := false }
      | Except.ok schema =>
        match load_files_to_biquery blobs_to_load schema cfg.file_type
            cfg.destination_table_id cfg.hive_partitioning
            cfg.create_behavior cfg.write_behavior env.bqRes with
        | Except.error _ =>
          { outcome := Outcome.ret RetVal.none, store := store1,
            setCalls := calls1, loaderInvoked := true }
        | Except.ok _ =>
          { outcome := Outcome.ret
              (RetVal.str ("Success for " ++ job_name)),
            store := set_entity_item store1 job_name "last_modified_time"
              env.currentTime,
            setCalls := calls1
              ++ [(job_name, "last_modified_time", env.currentTime)],
            loaderInvoked := true }

/-- Embedding of start_file_load: parse the body (attribute access on None
raises), require job_name, capture current_time, resolve config, validate
the create and write dispositions (returning the AttributeError object on
an invalid value), read the entity, take the debounce and mode decision,
and run the accepted tail. -/
def start_file_load (env : Env) (request : Request) : RunOut :=
  match request.body with
  | Option.none =>
    { outcome := Outcome.raised (PyErr.attributeError
        "NoneType object has no attribute get"),
      store := env.store, setCalls := [], loaderInvoked := false }
  | some request_json =>
    match request_json.job_name with
    | Option.none =>
      { outcome := Outcome.ret
          (RetVal.str "Please include job_name in request json."),
        store := env.store, setCalls := [], loaderInvoked := false }
    | some job_name =>
      let current_time := env.currentTime
      match env.configRes with
      | Except.error e =>
        { outcome := Outcome.raised e, store := env.store, setCalls := [],
          loaderInvoked := false }
      | Except.ok config =>
        if config.create_behavior.any
            (fun s => ! CreateDispositionAttrs.contains s) then
          { outcome := Outcome.ret (RetVal.errObj (PyErr.attributeError
              "type object CreateDisposition has no such attribute")),
            store := env.store, setCalls := [], loaderInvoked := false }
        else if config.write_behavior.any
            (fun s => ! WriteDispositionAttrs.contains s) then
          { outcome := Outcome.ret (RetVal.errObj (PyErr.attributeError
              "type object WriteDisposition has no such attribute")),
            store := env.store, setCalls := [], loaderInvoked := false }
        else
          match debounce_decision (get_entity env.store job_name)
              request_json.backfill current_time with
          | Decision.tooSoon =>
            { outcome := Outcome.ret RetVal.none, store := env.store,
              setCalls := [], loaderInvoked := false }
          | Decision.accepted backfill_flag last_modified_time =>
            runAccepted env config job_name backfill_flag last_modified_time

/-- Python str.strip(): drop leading and trailing whitespace. -/
def pyStrip (s : String) : String :=
  String.mk
    (((s.toList.dropWhile Char.isWhitespace).reverse.dropWhile
        Char.isWhitespace).reverse)

/-- Embedding of PULL_DICT: the comprehension iterates the CHARACTERS of
the CONFIG_JOB_NAMES environment string and strips each one. -/
def PULL_DICT (config_job_names : String) : List String :=
  config_job_names.toList.map (fun pull => pyStrip (String.mk [pull]))

/-- A task placed on the cloud-tasks queue; the payload field job_name. -/
structure QueueTask where
  job_name : String
deriving Repr, DecidableEq

/-- Embedding of add_object_task_to_queue: a falsy (empty) job_name is
rejected with no enqueue; otherwise a task whose payload carries the
job_name is created. -/
def add_object_task_to_queue (job_name : String) : Option QueueTask :=
  if job_name = "" then Option.none
  else some { job_name := job_name }

/-- Embedding of schedule_objects: one add_object_task_to_queue call per
element of PULL_DICT; the result is the list of enqueued tasks. -/
def schedule_objects (config_job_names : String) : List QueueTask :=
  (PULL_DICT config_job_names).filterMap add_object_task_to_queue

/-
Concrete fixtures used by witnesses and counterexamples.
-/

/-- A well-formed job configuration. -/
def cfg0 : Config :=
  { blobPref := "p/", schema_file_location := Option.none,
    storage_bucket := "b", destination_table_id := "t",
    file_type := "json", hive_partitioning := Option.none,
    create_behavior := Option.none, write_behavior := Option.none }

/-- A fresh environment: no persisted state, empty bucket, all external
collaborators succeed. -/
def env0 : Env :=
  { configRes := Except.ok cfg0, store := [], blobs := [],
    currentTime := 2000000000, stampTime := 2000000001,
    schemaRes := Except.ok (), bqRes := Except.ok () }

/-- env0 with a failing BigQuery load job. -/
def envFail : Env := { env0 with bqRes := Except.error (PyErr.loadError "boom") }

/-- Accumulator characterisation of the list_blobs loop. -/
theorem list_blobs_loop_eq (bucket : String) (ts : Micros) (bs : List Blob)
    (acc : List String) :
    list_blobs_loop bucket ts bs acc
      = acc ++ (bs.filter
          (fun b => decide (pyIntSec ts < pyIntSec b.updated))).map
          (blobUri bucket) := by
  induction bs generalizing acc with
  | nil => simp [list_blobs_loop]
  | cons b rest ih =>
    by_cases h : pyIntSec ts < pyIntSec b.updated
    · simp [list_blobs_loop, h, ih]
    · simp [list_blobs_loop, h, ih]

/-- C4: in incremental mode, a listed object is kept if and only if its
last-modified timestamp truncated to whole seconds strictly exceeds the
stored watermark truncated to whole seconds; an object equal to the
watermark at second granularity is excluded. -/
theorem C4_incremental_selection (bucket : String) (pref : String)
    (w : Micros) (blobs : List Blob) :
    list_blobs bucket pref w blobs
      = (blobs.filter
          (fun b => decide (pyIntSec w < pyIntSec b.updated))).map
          (blobUri bucket)
    ∧ ∀ b : Blob, pyIntSec b.updated = pyIntSec w →
        b ∉ blobs.filter (fun b => decide (pyIntSec w < pyIntSec b.updated)) := by
  constructor
  · simp [list_blobs, list_blobs_loop_eq]
  · intro b hb hmem
    have hkeep := List.of_mem_filter hmem
    simp only [decide_eq_true_eq] at hkeep
    omega

/-- Witness for C4 at a concrete input: a blob 999999 microseconds past
the watermark (equal at second granularity) is not selected. -/
theorem C4_incremental_selection_witness :
    (⟨"f3", 5000999999⟩ : Blob)
      ∉ ([⟨"f3", 5000999999⟩] : List Blob).filter
          (fun b => decide (pyIntSec 5000000000 < pyIntSec b.updated)) :=
  (C4_incremental_selection "b" "p/" 5000000000 [⟨"f3", 5000999999⟩]).2
    ⟨"f3", 5000999999⟩ (by decide)

/-- C9: set_entity_item writes the named field, leaves every other field
of that job record unchanged, leaves every other job record unchanged,
and creates a record containing only that field when none existed. -/
theorem C9_set_entity_item_frame (ds : Datastore) (job : String)
    (key : String) (v : Micros) :
    storeField (set_entity_item ds job key v) job key = some v
  ∧ (∀ k, k ≠ key →
      storeField (set_entity_item ds job key v) job k = storeField ds job k)
  ∧ (∀ j, j ≠ job →
      dsGet (set_entity_item ds job key v) j = dsGet ds j)
  ∧ (dsGet ds job = Option.none →
      dsGet (set_entity_item ds job key v) job = some [(key, v)]) := by
  refine ⟨storeField_set_same ds job key v,
    fun k hk => storeField_set_other_field ds job key k v hk,
    fun j hj => ?_, fun habs => ?_⟩
  · simp [set_entity_item, dsGet_put_other _ _ _ _ hj]
  · simp [set_entity_item, get_entity, habs, entityUpdate, dsGet_put_same]

/-- Witness for C9 at a concrete input: writing field k of job j into an
empty store. -/
theorem C9_set_entity_item_frame_witness :
    storeField (set_entity_item [] "j" "k" 1) "j" "k" = some 1
  ∧ storeField (set_entity_item [] "j" "k" 1) "j" "other"
      = storeField [] "j" "other"
  ∧ dsGet (set_entity_item [] "j" "k" 1) "i" = dsGet [] "i"
  ∧ dsGet (set_entity_item [] "j" "k" 1) "j" = some [("k", 1)] :=
  ⟨(C9_set_entity_item_frame [] "j" "k" 1).1,
   (C9_set_entity_item_frame [] "j" "k" 1).2.1 "other" (by decide),
   (C9_set_entity_item_frame [] "j" "k" 1).2.2.1 "i" (by decide),
   (C9_set_entity_item_frame [] "j" "k" 1).2.2.2 (by decide)⟩

/-- C3: the dispatcher comprehension iterates the characters of the
CONFIG_JOB_NAMES environment string, not a list of names: for the single
configured job name ab it enqueues two tasks whose payloads are the
characters a and b, and for the comma-separated string a, b it enqueues a
task whose payload is a comma. This refutes one-task-per-job-name. -/
theorem C3_dispatcher_enqueues_per_character :
    schedule_objects "ab"
      = [{ job_name := "a" }, { job_name := "b" }]
    ∧ schedule_objects "a, b"
      = [{ job_name := "a" }, { job_name := "," }, { job_name := "b" }] := by
  constructor
  · decide
  · decide

/-- C10: when the request body is not parseable JSON, start_file_load
raises an AttributeError (attribute access on None) instead of returning
the instructional error string; that string is returned exactly on the
path where a JSON body is present but job_name is absent. -/
theorem C10_unparseable_body_raises (env : Env) :
    (start_file_load env { body := Option.none }).outcome
      = Outcome.raised (PyErr.attributeError
          "NoneType object has no attribute get")
  ∧ (∀ rj : ReqJson, rj.job_name = Option.none →
      (start_file_load env { body := some rj }).outcome
        = Outcome.ret
            (RetVal.str "Please include job_name in request json.")) := by
  constructor
  · rfl
  · intro rj h
    simp [start_file_load, h]

/-- Witness for C10 at a concrete input. -/
theorem C10_unparseable_body_raises_witness :
    (start_file_load env0
        { body := some { job_name := Option.none, backfill := Option.none } }).outcome
      = Outcome.ret (RetVal.str "Please include job_name in request json.") :=
  (C10_unparseable_body_raises env0).2
    { job_name := Option.none, backfill := Option.none } rfl

/-- C2: when the stored entity is absent or either last_modified_time or
last_attempted_grab is missing from it, the debounce and mode decision of
start_file_load accepts the run with backfill forced true, for every value
of the request backfill flag and of the clock. -/
theorem C2_missing_state_forces_backfill (entity : Option Entity)
    (reqBackfill : Option Bool) (current_time : Micros)
    (h : get_last_modified_time entity = Option.none
       ∨ get_last_attempted_grab entity = Option.none) :
    debounce_decision entity reqBackfill current_time
      = Decision.accepted true (get_last_modified_time entity) := by
  rcases h with h | h
  · simp [debounce_decision, h]
  · cases hl : get_last_modified_time entity <;>
      simp [debounce_decision, h, hl]

/-- Witness for C2 at a concrete input: a record with a watermark but no
attempt stamp, a request explicitly asking backfill = false. -/
theorem C2_missing_state_forces_backfill_witness :
    debounce_decision (some [("last_modified_time", 5)]) (some false) 100
      = Decision.accepted true
          (get_last_modified_time (some [("last_modified_time", 5)])) :=
  C2_missing_state_forces_backfill (some [("last_modified_time", 5)])
    (some false) 100 (Or.inr (by decide))

/-- C5: on an accepted run in which the warehouse loader completes
successfully (a nonempty selection reached the loader and the load
returned), in backfill and in incremental mode alike, the orchestrator
writes last_modified_time = currentTime, the timestamp captured at
invocation start, and returns the success string. -/
theorem C5_success_commits_run_start (env : Env) (cfg : Config)
    (job : String) (bf : Bool) (lmt : Option Micros) (btl : BlobsToLoad)
    (sch : Option Unit)
    (hsel : select_blobs env cfg bf lmt = Except.ok btl)
    (hlen : btl.len ≠ 0)
    (hsch : fetch_schema env cfg = Except.ok sch)
    (hload : load_files_to_biquery btl sch cfg.file_type
        cfg.destination_table_id cfg.hive_partitioning cfg.create_behavior
        cfg.write_behavior env.bqRes = Except.ok ()) :
    (runAccepted env cfg job bf lmt).outcome
      = Outcome.ret (RetVal.str ("Success for " ++ job))
  ∧ storeField (runAccepted env cfg job bf lmt).store job
      "last_modified_time" = some env.currentTime := by
  refine ⟨?_, ?_⟩ <;>
    simp [runAccepted, hsel, hlen, hsch, hload, storeField_set_same]

/-- Witness for C5 at a concrete input: backfill run over env0. -/
theorem C5_success_commits_run_start_witness :
    (runAccepted env0 cfg0 "j" true Option.none).outcome
      = Outcome.ret (RetVal.str ("Success for " ++ "j"))
  ∧ storeField (runAccepted env0 cfg0 "j" true Option.none).store "j"
      "last_modified_time" = some env0.currentTime :=
  C5_success_commits_run_start env0 cfg0 "j" true Option.none
    (BlobsToLoad.wildcard "gs://b/p/*") Option.none rfl (by decide) rfl rfl

/-- C6: on an accepted run in which the loader raises, the orchestrator
returns None, last_modified_time is left exactly as it was in the store
before the run, and last_attempted_grab holds the stamp written before
selection, the only store write of the run. -/
theorem C6_load_failure_keeps_watermark (env : Env) (cfg : Config)
    (job : String) (bf : Bool) (lmt : Option Micros) (btl : BlobsToLoad)
    (sch : Option Unit) (err : PyErr)
    (hsel : select_blobs env cfg bf lmt = Except.ok btl)
    (hlen : btl.len ≠ 0)
    (hsch : fetch_schema env cfg = Except.ok sch)
    (hload : load_files_to_biquery btl sch cfg.file_type
        cfg.destination_table_id cfg.hive_partitioning cfg.create_behavior
        cfg.write_behavior env.bqRes = Except.error err) :
    (runAccepted env cfg job bf lmt).outcome = Outcome.ret RetVal.none
  ∧ storeField (runAccepted env cfg job bf lmt).store job
      "last_modified_time" = storeField env.store job "last_modified_time"
  ∧ storeField (runAccepted env cfg job bf lmt).store job
      "last_attempted_grab" = some env.stampTime
  ∧ (runAccepted env cfg job bf lmt).setCalls
      = [(job, "last_attempted_grab", env.stampTime)] := by
  have hframe := storeField_set_other_field env.store job
    "last_attempted_grab" "last_modified_time" env.stampTime (by decide)
  refine ⟨?_, ?_, ?_, ?_⟩ <;>
    simp [runAccepted, hsel, hlen, hsch, hload, storeField_set_same, hframe]

/-- Witness for C6 at a concrete input: the BigQuery load job fails. -/
theorem C6_load_failure_keeps_watermark_witness :
    (runAccepted envFail cfg0 "j" true Option.none).outcome
      = Outcome.ret RetVal.none
  ∧ storeField (runAccepted envFail cfg0 "j" true Option.none).store "j"
      "last_modified_time" = storeField envFail.store "j" "last_modified_time"
  ∧ storeField (runAccepted envFail cfg0 "j" true Option.none).store "j"
      "last_attempted_grab" = some envFail.stampTime
  ∧ (runAccepted envFail cfg0 "j" true Option.none).setCalls
      = [("j", "last_attempted_grab", envFail.stampTime)] :=
  C6_load_failure_keeps_watermark envFail cfg0 "j" true Option.none
    (BlobsToLoad.wildcard "gs://b/p/*") Option.none
    (PyErr.loadError "boom") rfl (by decide) rfl rfl

/-- C7: on an accepted incremental run whose selection is empty, the
orchestrator returns the no-new-blobs message, never invokes the loader,
and the attempt stamp written before selection is the only store write
and is kept. -/
theorem C7_empty_selection_short_circuit (env : Env) (cfg : Config)
    (job : String) (t : Micros)
    (hlist : list_blobs cfg.storage_bucket cfg.blobPref t env.blobs = []) :
    (runAccepted env cfg job false (some t)).outcome
      = Outcome.ret
          (RetVal.str ("There are no new blobs to load for " ++ job))
  ∧ (runAccepted env cfg job false (some t)).loaderInvoked = false
  ∧ storeField (runAccepted env cfg job false (some t)).store job
      "last_attempted_grab" = some env.stampTime
  ∧ (runAccepted env cfg job false (some t)).setCalls
      = [(job, "last_attempted_grab", env.stampTime)] := by
  have hsel : select_blobs env cfg false (some t)
      = Except.ok (BlobsToLoad.files []) := by
    simp [select_blobs, hlist]
  refine ⟨?_, ?_, ?_, ?_⟩ <;>
    simp [runAccepted, hsel, BlobsToLoad.len, storeField_set_same]

/-- Witness for C7 at a concrete input: empty bucket listing. -/
theorem C7_empty_selection_short_circuit_witness :
    (runAccepted env0 cfg0 "j" false (some 5)).outcome
      = Outcome.ret
          (RetVal.str ("There are no new blobs to load for " ++ "j"))
  ∧ (runAccepted env0 cfg0 "j" false (some 5)).loaderInvoked = false
  ∧ storeField (runAccepted env0 cfg0 "j" false (some 5)).store "j"
      "last_attempted_grab" = some env0.stampTime
  ∧ (runAccepted env0 cfg0 "j" false (some 5)).setCalls
      = [("j", "last_attempted_grab", env0.stampTime)] :=
  C7_empty_selection_short_circuit env0 cfg0 "j" 5 rfl

end DbtSandbox
